import Mathlib

/-!
# monopp: native/managed marshaling layer

A shallow embedding of

* `src/tests/tests/monort_suite.cpp` : the POD pair `vec2f` / `managed_interface::vector2f`,
  its two `converter::convert` specialisations and the native functions bound as
  internal calls;
* `src/monopp/mono_class.h` : the templated `mono_class::get_method<function_signature_t>`.

The invocation thunk, the field and property invokers, the internal-call bridge and the
object-wrapper protocol are not part of the sources at hand; they are modelled from the
design document (sections 3, 4.2 to 4.7, 6 and 7) and every such definition says so.
-/

namespace monopp

/-! ## `monort_suite.cpp`: the POD pair and its converters -/

/-- A C++ `float`, carried as its IEEE-754 binary32 bit pattern. The code under study only
copies floats, it never computes with them. -/
structure float where
  bits : Fin 4294967296
  deriving DecidableEq, Repr

/-- The native struct `vec2f` (monort_suite.cpp, lines 16 to 20). -/
structure vec2f where
  x : float
  y : float
  deriving DecidableEq, Repr

namespace managed_interface

/-- The managed-layout struct `mono::managed_interface::vector2f` (lines 26 to 30). -/
structure vector2f where
  x : float
  y : float
  deriving DecidableEq, Repr

/-- The template `converter::convert<To, From>`; each `template <>` specialisation in the
source is one instance. -/
class converter (To From : Type) where
  convert : From → To

/-- The specialisation `converter::convert(const vec2f& v) -> vector2f`:
`return vector2f{v.x, v.y};`. -/
instance convert_vec2f_vector2f : converter vector2f vec2f where
  convert v := { x := v.x, y := v.y }

/-- The specialisation `converter::convert(const vector2f& v) -> vec2f`:
`return vec2f{v.x, v.y};`. -/
instance convert_vector2f_vec2f : converter vec2f vector2f where
  convert v := { x := v.x, y := v.y }

end managed_interface

/-! ## `mono_class.h`: the templated `get_method` -/

/-- A native function signature `R(Args...)`: the template argument `function_signature_t`.
`T` is the universe of native types. -/
structure function_signature (T : Type) where
  ret : T
  args : List T

namespace function_traits

/-- Modelled from the spec: the member `function_traits<function_signature_t>::arg_types`
(its header is missing): the tuple of the ordered parameter types of the signature. -/
def arg_types {T : Type} (sig : function_signature T) : List T := sig.args

/-- Modelled from the spec: the member `function_traits<function_signature_t>::arity` (its
header is missing): the parameter count of the signature, which the source passes as the
`int argc` of the arity lookup; a parameter list is far shorter than `2^31`, so the
conversion to `int` keeps the value. -/
def arity {T : Type} (sig : function_signature T) : Int := (sig.args.length : Int)

end function_traits

/-- The class `mono_class` as far as the templated `get_method` depends on it. The two
non-template overloads of `get_method` are declared in `mono_class.h` (lines 30 and 32),
their bodies are elsewhere, so they are taken as given: `const` members that return a
`mono_method` or throw, `err` being what is thrown. The members `assembly_` and `class_`
are only read by those overloads and are left out. -/
structure mono_class (method err : Type) where
  namespace_ : String
  name_ : String
  valuetype_ : Bool
  get_method_with_args : String → Except err method
  get_method_argc : String → Int → Except err method

/-- One call of a non-template `get_method` overload, with the arguments it received. -/
inductive lookup_call where
  | by_signature (name_with_args : String)
  | by_arity (name : String) (argc : Int)
  deriving DecidableEq, Repr

/-- Modelled from the spec: the typed method thunk `mono_method_thunk<function_signature_t>`
(its header is missing): a callable bound to one resolved method (section 4.4), built by
`mono_method_thunk<function_signature_t>(std::move(func))`. The signature is a template
argument in the source and a field here. -/
structure mono_method_thunk (T method : Type) where
  signature : function_signature T
  method : method

namespace mono_class

variable {T method err : Type}

/-- The call `get_method(name_with_args)`; the trace `tr` of lookups grows by that call whether
or not it throws. -/
def lookup_with_args (c : mono_class method err) (name_with_args : String)
    (tr : List lookup_call) : Except err method × List lookup_call :=
  (c.get_method_with_args name_with_args, tr ++ [lookup_call.by_signature name_with_args])

/-- The call `get_method(name, argc)`, traced in the same way. -/
def lookup_argc (c : mono_class method err) (name : String) (argc : Int)
    (tr : List lookup_call) : Except err method × List lookup_call :=
  (c.get_method_argc name argc, tr ++ [lookup_call.by_arity name argc])

/-- The template `mono_class::get_method<function_signature_t>(name)` (mono_class.h, lines 59
to 79). `get_args_signature` is `types::get_args_signature`, applied to a value of the tuple
type `arg_types`; it returns the pair `(args, all_types_known)`. A `throw` of the selected
lookup leaves the function at once, so no thunk is built. -/
def get_method (c : mono_class method err) (get_args_signature : List T → String × Bool)
    (sig : function_signature T) (name : String) (tr : List lookup_call) :
    Except err (mono_method_thunk T method) × List lookup_call :=
  let tup := function_traits.arg_types sig
  let args_result := get_args_signature tup
  let args := args_result.1
  let all_types_known := args_result.2
  if all_types_known then
    match c.lookup_with_args (name ++ "(" ++ args ++ ")") tr with
    | (Except.ok func, tr1) => (Except.ok { signature := sig, method := func }, tr1)
    | (Except.error e, tr1) => (Except.error e, tr1)
  else
    let arg_count := function_traits.arity sig
    match c.lookup_argc name arg_count tr with
    | (Except.ok func, tr1) => (Except.ok { signature := sig, method := func }, tr1)
    | (Except.error e, tr1) => (Except.error e, tr1)

end mono_class

/-- Whether a traced call is an arity-based lookup. -/
def lookup_call.is_arity : lookup_call → Bool
  | lookup_call.by_signature _ => false
  | lookup_call.by_arity _ _ => true

/-- Whether a traced call is a signature-string lookup. -/
def lookup_call.is_signature : lookup_call → Bool
  | lookup_call.by_signature _ => true
  | lookup_call.by_arity _ _ => false

/-! ## The marshaling layer of the design document

Everything from here to the end of the definitions is a model of components whose code is
not among the sources: data model (section 3), converter registry (4.2), argument marshaler
(4.3), invocation thunk (4.4), field and property invokers (4.5), internal-call bridge (4.6),
object-wrapper protocol (4.7), host-runtime surface (6) and failure taxonomy (7). -/

/-- Modelled from the spec: the failure taxonomy of section 7 (the headers that declare the
exception types are missing). -/
inductive Failure where
  | LookupFailure
  | InvalidInstance
  | TypeMismatch
  | ManagedException (type_name message : String)
  | NotInitialized
  deriving DecidableEq, Repr

/-- Modelled from the spec: a reference to a native owned (reference-counted) object, the
`std::shared_ptr` of the test suite. Two references denote the same native object exactly
when their addresses agree. -/
structure shared_ptr where
  address : Nat
  deriving DecidableEq, Repr

/-- Modelled from the spec: `ManagedValue` of section 3, the boxed representation of a value
crossing the boundary. A value type carries an inline copy, a reference type carries the
runtime handle (the object id). -/
inductive ManagedValue where
  | null
  | single (f : float)
  | vector2f (v : managed_interface.vector2f)
  | string (s : String)
  | object (id : Nat)
  deriving DecidableEq, Repr

/-- Modelled from the spec: `ObjectInstance` of section 3 (`mono::mono_object` in the test
suite): a reference to a managed object that carries a validity flag; identity is the id. -/
structure mono_object where
  id : Nat
  is_valid : Bool
  deriving DecidableEq, Repr

/-- Modelled from the spec: the member `valid()` of an object reference. -/
def mono_object.valid (o : mono_object) : Bool := o.is_valid

/-- Modelled from the spec: `FieldHandle` of section 3, tagged `is_static`. -/
structure FieldHandle where
  declaring_type : String
  name : String
  is_static : Bool
  deriving DecidableEq, Repr

/-- Modelled from the spec: what the host runtime executes when a method is invoked. The
managed assembly is not among the sources; a property accessor reads or writes its backing
storage, any other body is a function of the receiver and the boxed arguments that returns a
boxed value or raises a managed exception (type name, message). -/
inductive ManagedBody where
  | getter (backing : FieldHandle)
  | setter (backing : FieldHandle)
  | managed (run : Option Nat → List ManagedValue → Except (String × String) ManagedValue)

/-- Modelled from the spec: `MethodHandle` of section 3, identified by declaring type, name
and parameter signature, together with what the reflection metadata says about the method:
whether it is static and its body. -/
structure MethodHandle where
  declaring_type : String
  name : String
  signature : String
  is_static : Bool
  body : ManagedBody

/-- Modelled from the spec: `PropertyHandle` of section 3, tagged `is_static`. The accessors
of a property are methods (section 4.5); the suite's properties are accessors over a backing
field (the static property reads back what the static field test stored). -/
structure PropertyHandle where
  declaring_type : String
  name : String
  is_static : Bool
  backing : FieldHandle

/-- Modelled from the spec: the zero-argument get accessor of a property (section 4.5). -/
def PropertyHandle.get_method (p : PropertyHandle) : MethodHandle :=
  { declaring_type := p.declaring_type, name := "get_" ++ p.name, signature := "",
    is_static := p.is_static, body := ManagedBody.getter p.backing }

/-- Modelled from the spec: the one-argument set accessor of a property (section 4.5). -/
def PropertyHandle.set_method (p : PropertyHandle) : MethodHandle :=
  { declaring_type := p.declaring_type, name := "set_" ++ p.name, signature := "value",
    is_static := p.is_static, body := ManagedBody.setter p.backing }

/-- Modelled from the spec: one generic invoke performed through the host runtime. -/
structure Invocation where
  declaring_type : String
  name : String
  signature : String
  receiver : Option Nat
  args : List ManagedValue
  deriving DecidableEq, Repr

/-- Modelled from the spec: the state on both sides of the boundary. Managed side (host
runtime, section 6): the allocation counter of create-instance, the static and per-object
field stores, the opaque handle field of wrapper proxies (section 4.7) and the log of generic
invokes. Native side: the heap of `vec2f` objects owned through `shared_ptr`, its allocation
counter and the reference counts. -/
structure World where
  next_object : Nat
  static_fields : FieldHandle → ManagedValue
  instance_fields : Nat → FieldHandle → ManagedValue
  handle_field : Nat → Option Nat
  invocations : List Invocation
  native_heap : Nat → Option vec2f
  next_address : Nat
  use_count : Nat → Nat

/-- Modelled from the spec: a freshly started runtime: nothing allocated, every field null. -/
def World.empty : World :=
  { next_object := 0, static_fields := fun _ => ManagedValue.null,
    instance_fields := fun _ _ => ManagedValue.null, handle_field := fun _ => none,
    invocations := [], native_heap := fun _ => none, next_address := 0,
    use_count := fun _ => 0 }

/-- Modelled from the spec: the host runtime's create-instance (section 6): a new live object
with a fresh id. -/
def create_instance (w : World) : mono_object × World :=
  ({ id := w.next_object, is_valid := true }, { w with next_object := w.next_object + 1 })

namespace mono_object_wrapper

/-- Modelled from the spec: `create(instance, native_owned_ref)` of section 4.7: stores a new
strong reference to the native object in the opaque handle field of the managed instance. -/
def create (w : World) (inst : mono_object) (ref : shared_ptr) : World :=
  { w with
    handle_field := Function.update w.handle_field inst.id (some ref.address),
    use_count := Function.update w.use_count ref.address (w.use_count ref.address + 1) }

/-- Modelled from the spec: `extract(instance)` of section 4.7: reads the handle back and
yields an additional strong reference; `NotInitialized` if no handle was ever stored. -/
def extract (w : World) (inst : mono_object) : Except Failure shared_ptr × World :=
  match w.handle_field inst.id with
  | none => (Except.error Failure.NotInitialized, w)
  | some a =>
    (Except.ok { address := a },
     { w with use_count := Function.update w.use_count a (w.use_count a + 1) })

end mono_object_wrapper

/-- Modelled from the spec: the native types the converter registry of the test suite knows:
`void`, the primitive `float`, the string, the POD `vec2f` registered against `vector2f`
(`register_basic_mono_converter_for_pod`) and the wrapper `std::shared_ptr<vec2f>`
(`register_basic_mono_converter_for_wrapper`). -/
inductive NativeType where
  | void
  | float
  | string
  | vec2f
  | shared_ptr_vec2f
  deriving DecidableEq, Repr

/-- Modelled from the spec: the values of a native type. -/
@[reducible] def NativeType.carrier : NativeType → Type
  | NativeType.void => Unit
  | NativeType.float => monopp.float
  | NativeType.string => String
  | NativeType.vec2f => monopp.vec2f
  | NativeType.shared_ptr_vec2f => monopp.shared_ptr

/-- Modelled from the spec: a native value together with its static type: one element of a
native argument tuple. -/
structure NativeValue where
  type : NativeType
  value : type.carrier

/-- Modelled from the spec: the native→managed half of the registered converters (section
4.2). Primitives and strings are boxed, a POD goes through the registered
`converter::convert`, a wrapper allocates a managed proxy instance and stores a new strong
reference to the native object inside it. -/
def to_managed : (T : NativeType) → T.carrier → World → ManagedValue × World
  | NativeType.void, _, w => (ManagedValue.null, w)
  | NativeType.float, f, w => (ManagedValue.single f, w)
  | NativeType.string, s, w => (ManagedValue.string s, w)
  | NativeType.vec2f, v, w =>
    (ManagedValue.vector2f (managed_interface.converter.convert v), w)
  | NativeType.shared_ptr_vec2f, p, w =>
    let r := create_instance w
    (ManagedValue.object r.1.id, mono_object_wrapper.create r.2 r.1 p)

/-- Modelled from the spec: the managed→native half of the registered converters (section
4.2). A wrapper reads the reference stored in the proxy; a boxed value of another type is a
`TypeMismatch`. -/
def to_native : (T : NativeType) → ManagedValue → World → Except Failure T.carrier × World
  | NativeType.void, _, w => (Except.ok (), w)
  | NativeType.float, ManagedValue.single f, w => (Except.ok f, w)
  | NativeType.string, ManagedValue.string s, w => (Except.ok s, w)
  | NativeType.vec2f, ManagedValue.vector2f v, w =>
    (Except.ok (managed_interface.converter.convert v), w)
  | NativeType.shared_ptr_vec2f, ManagedValue.object id, w =>
    mono_object_wrapper.extract w { id := id, is_valid := true }
  | _, _, w => (Except.error Failure.TypeMismatch, w)

/-- Modelled from the spec: `pack(args...)` of section 4.3: the converter of each argument,
applied positionally in call order, the state threaded from one argument to the next. -/
def pack : List NativeValue → World → List ManagedValue × World
  | [], w => ([], w)
  | a :: rest, w =>
    let r := to_managed a.type a.value w
    let rs := pack rest r.2
    (r.1 :: rs.1, rs.2)

/-- Modelled from the spec: reading a boxed field value through the host runtime (section 6):
the per-object store when a receiver is given, the static store otherwise. -/
def read_field (w : World) (f : FieldHandle) (receiver : Option Nat) : ManagedValue :=
  match receiver with
  | some id => w.instance_fields id f
  | none => w.static_fields f

/-- Modelled from the spec: writing a boxed field value through the host runtime. -/
def write_field (w : World) (f : FieldHandle) (receiver : Option Nat) (m : ManagedValue) :
    World :=
  match receiver with
  | some id =>
    { w with instance_fields :=
        Function.update w.instance_fields id (Function.update (w.instance_fields id) f m) }
  | none => { w with static_fields := Function.update w.static_fields f m }

/-- Modelled from the spec: generic-invoke(method, instance, boxed-args) → boxed-result
(section 6). Every invoke is logged; an unhandled managed exception is reported as
`ManagedException` with its type name and message. -/
def generic_invoke (w : World) (m : MethodHandle) (receiver : Option Nat)
    (args : List ManagedValue) : Except Failure ManagedValue × World :=
  let w1 := { w with invocations := w.invocations ++
    [{ declaring_type := m.declaring_type, name := m.name, signature := m.signature,
       receiver := receiver, args := args }] }
  match m.body, args with
  | ManagedBody.getter f, [] => (Except.ok (read_field w1 f receiver), w1)
  | ManagedBody.setter f, [v] => (Except.ok ManagedValue.null, write_field w1 f receiver v)
  | ManagedBody.managed run, _ =>
    match run receiver args with
    | Except.ok r => (Except.ok r, w1)
    | Except.error (ty, msg) => (Except.error (Failure.ManagedException ty msg), w1)
  | _, _ => (Except.error Failure.TypeMismatch, w1)

namespace mono_method_thunk

/-- Modelled from the spec: `call(instance_or_none, args...)` of section 4.4 on a thunk bound
to a resolved `MethodHandle`: validate the instance handle if the method is non-static
(`InvalidInstance` if the reference is not valid), pack the arguments, invoke through the host
runtime, surface a managed exception as a failure, otherwise unpack the boxed result into the
declared return type. -/
def call (t : mono_method_thunk NativeType MethodHandle) (inst : Option mono_object)
    (args : List NativeValue) (w : World) :
    Except Failure t.signature.ret.carrier × World :=
  if !t.method.is_static && !(match inst with
                              | some o => o.valid
                              | none => false) then
    (Except.error Failure.InvalidInstance, w)
  else
    let packed := pack args w
    match generic_invoke packed.2 t.method (inst.map (fun o => o.id)) packed.1 with
    | (Except.error e, w2) => (Except.error e, w2)
    | (Except.ok r, w2) => to_native t.signature.ret r w2

end mono_method_thunk


/-- Modelled from the spec: a typed field accessor over a resolved `FieldHandle` (section
4.5); `type` is the template argument of `make_field_invoker<T>`. -/
structure mono_field_invoker where
  field : FieldHandle
  type : NativeType

namespace mono_field_invoker

/-- Modelled from the spec: the static `set_value(v)`: no instance parameter, the value goes
through the converter and is stored as the boxed static field value. -/
def set_value_static (i : mono_field_invoker) (v : i.type.carrier) (w : World) :
    Except Failure Unit × World :=
  let r := to_managed i.type v w
  (Except.ok (), write_field r.2 i.field none r.1)

/-- Modelled from the spec: the static `get_value()`: the boxed static field value, converted
to the native type. -/
def get_value_static (i : mono_field_invoker) (w : World) :
    Except Failure i.type.carrier × World :=
  to_native i.type (read_field w i.field none) w

/-- Modelled from the spec: the instance `set_value(instance, v)`: validates instance liveness
first. -/
def set_value (i : mono_field_invoker) (o : mono_object) (v : i.type.carrier) (w : World) :
    Except Failure Unit × World :=
  if !o.valid then (Except.error Failure.InvalidInstance, w)
  else
    let r := to_managed i.type v w
    (Except.ok (), write_field r.2 i.field (some o.id) r.1)

end mono_field_invoker

/-- Modelled from the spec: a typed property accessor over a resolved `PropertyHandle`
(section 4.5); `type` is the template argument of `make_property_invoker<T>`. -/
structure mono_property_invoker where
  property : PropertyHandle
  type : NativeType

namespace mono_property_invoker

/-- Modelled from the spec: the thunk of signature `T()` over the get accessor. -/
def getter_thunk (i : mono_property_invoker) : mono_method_thunk NativeType MethodHandle :=
  { signature := { ret := i.type, args := [] }, method := i.property.get_method }

/-- Modelled from the spec: the thunk of signature `void(T)` over the set accessor. -/
def setter_thunk (i : mono_property_invoker) : mono_method_thunk NativeType MethodHandle :=
  { signature := { ret := NativeType.void, args := [i.type] },
    method := i.property.set_method }

/-- Modelled from the spec: the static `set_value(v)`: the set accessor is invoked as a
one-argument method through the thunk, without an instance. -/
def set_value_static (i : mono_property_invoker) (v : i.type.carrier) (w : World) :
    Except Failure Unit × World :=
  i.setter_thunk.call none [{ type := i.type, value := v }] w

/-- Modelled from the spec: the static `get_value()`: the get accessor is invoked as a
zero-argument method through the thunk, without an instance. -/
def get_value_static (i : mono_property_invoker) (w : World) :
    Except Failure i.type.carrier × World :=
  i.getter_thunk.call none [] w

/-- Modelled from the spec: the instance `set_value(instance, v)`: validates instance liveness
first, then invokes the set accessor on the instance. -/
def set_value (i : mono_property_invoker) (o : mono_object) (v : i.type.carrier)
    (w : World) : Except Failure Unit × World :=
  if !o.valid then (Except.error Failure.InvalidInstance, w)
  else i.setter_thunk.call (some o) [{ type := i.type, value := v }] w

end mono_property_invoker

namespace types

/-- Modelled from the spec: the signature deriver of section 4.1 (`types::get_args_signature`,
whose header is missing). `token` is the registry lookup of a type's `TypeSignatureToken`;
the tokens are concatenated comma-separated, and an unknown token makes
`all_types_known = false`. -/
def get_args_signature {T : Type} (token : T → Option String) : List T → String × Bool
  | [] => ("", true)
  | [t] =>
    match token t with
    | some s => (s, true)
    | none => ("", false)
  | t :: t2 :: rest =>
    let r := get_args_signature token (t2 :: rest)
    match token t with
    | some s => (s ++ "," ++ r.1, r.2)
    | none => (r.1, false)

/-- Modelled from the spec: the tokens of the types the host runtime names by itself (the
primitives); the POD and wrapper types of the suite have no token. -/
def token : NativeType → Option String
  | NativeType.float => some "single"
  | NativeType.string => some "string"
  | _ => none

end types

/-- Modelled from the spec: a state without dangling managed references: no object at or past
the allocation counter has a handle, and no field holds a reference to such an object. -/
def World.wf (w : World) : Prop :=
  (∀ id, w.next_object ≤ id → w.handle_field id = none) ∧
  (∀ f id, w.static_fields f = ManagedValue.object id → id < w.next_object) ∧
  (∀ o f id, w.instance_fields o f = ManagedValue.object id → id < w.next_object)


/-- Modelled from the spec: one access to a static member of a type through its invoker
(section 4.5). -/
inductive static_touch where
  | field_set (i : mono_field_invoker) (v : i.type.carrier)
  | field_get (i : mono_field_invoker)
  | property_set (i : mono_property_invoker) (v : i.type.carrier)
  | property_get (i : mono_property_invoker)

/-- Modelled from the spec: the state after one access to a static member. -/
def static_touch.run : static_touch → World → World
  | static_touch.field_set i v, w => (i.set_value_static v w).2
  | static_touch.field_get i, w => (i.get_value_static w).2
  | static_touch.property_set i v, w => (i.set_value_static v w).2
  | static_touch.property_get i, w => (i.get_value_static w).2

/-- Modelled from the spec: the state after a sequence of accesses to static members. -/
def run_touches : List static_touch → World → World
  | [], w => w
  | t :: ts, w => run_touches ts (t.run w)

/-! ### Concrete data used to instantiate the theorems -/

/-- The float `12.0f`. -/
def f12 : float := { bits := 1094713344 }

/-- The float `15.0f`. -/
def f15 : float := { bits := 1097859072 }

/-- The float `6.0f`. -/
def f6 : float := { bits := 1086324736 }

/-- The float `7.0f`. -/
def f7 : float := { bits := 1088421888 }

/-- The float `55.0f`. -/
def f55 : float := { bits := 1113325568 }

/-- The float `56.0f`. -/
def f56 : float := { bits := 1113587712 }

/-- The static field `someFieldPODStatic` of `Tests.MonortTest` (test "test static POD
field"). -/
def someFieldPODStatic : FieldHandle :=
  { declaring_type := "Tests.MonortTest", name := "someFieldPODStatic", is_static := true }

/-- The invoker `make_field_invoker<vec2f>(field)` of the test "test static POD field". -/
def static_pod_field : mono_field_invoker :=
  { field := someFieldPODStatic, type := NativeType.vec2f }

/-- The static field `someFieldNONPODStatic` of `Tests.MonortTest`. -/
def someFieldNONPODStatic : FieldHandle :=
  { declaring_type := "Tests.MonortTest", name := "someFieldNONPODStatic", is_static := true }

/-- The invoker `make_field_invoker<vec2f_ptr>(field)` of the test "test static NON-POD
field". -/
def static_nonpod_field : mono_field_invoker :=
  { field := someFieldNONPODStatic, type := NativeType.shared_ptr_vec2f }

/-- The invoker `make_property_invoker<vec2f>(prop)` of the test "test static POD property";
the property reads and writes the static field `someFieldPODStatic`. -/
def static_pod_property : mono_property_invoker :=
  { property := { declaring_type := "Tests.MonortTest", name := "somePropertyPODStatic",
                  is_static := true, backing := someFieldPODStatic },
    type := NativeType.vec2f }

/-- A runtime in which two instances of `Tests.MonortTest` have been created. -/
def two_instances : World :=
  (create_instance (create_instance World.empty).2).2

/-- The thunk `make_method_invoker<vec2f(vec2f)>(type, "MethodPodAR")` of the test "call member
method 3", over a non-static method whose managed body returns the vector `(165, 7)`. -/
def MethodPodAR_thunk : mono_method_thunk NativeType MethodHandle :=
  { signature := { ret := NativeType.vec2f, args := [NativeType.vec2f] },
    method :=
      { declaring_type := "Tests.MonortTest", name := "MethodPodAR",
        signature := "Tests.Vector2f", is_static := false,
        body := ManagedBody.managed (fun _ _ =>
          Except.ok (ManagedValue.vector2f { x := { bits := 1126498304 }, y := f7 })) } }

/-- A class whose signature-string lookup knows one method and whose arity lookup knows
another; methods are named by strings and a failed lookup throws a message. -/
def sample_class : mono_class String String where
  namespace_ := "Tests"
  name_ := "MonortTest"
  valuetype_ := false
  get_method_with_args := fun s =>
    if s = "Scale(single)" then Except.ok "Tests.MonortTest:Scale (single)"
    else Except.error ("no method " ++ s)
  get_method_argc := fun n argc =>
    if n = "MethodPodAR" ∧ argc = 1 then Except.ok "Tests.MonortTest:MethodPodAR (Vector2f)"
    else if n = "Twice" ∧ argc = 2 then Except.ok "Tests.MonortTest:Twice (single,single)"
    else Except.error ("no method " ++ n)

/-! ## Theorems -/

/-- C1: for the POD pair of the test suite, converting a `vec2f` to the managed `vector2f` and
back gives a `vec2f` with the same `x` and the same `y`. -/
theorem convert_vec2f_round_trip (v : vec2f) :
    ((managed_interface.converter.convert
        ((managed_interface.converter.convert v : managed_interface.vector2f)) : vec2f).x
      = v.x) ∧
    ((managed_interface.converter.convert
        ((managed_interface.converter.convert v : managed_interface.vector2f)) : vec2f).y
      = v.y) :=
  ⟨rfl, rfl⟩

/-- C2: when the derived argument signature reports `all_types_known = true`, the templated
`get_method` performs exactly one lookup, the signature-based one, with the string
`name + "(" + args + ")"`; its outcome is the outcome of that lookup (wrapped in a thunk on
success) and no arity-based lookup is performed. -/
theorem get_method_known_uses_signature {T method err : Type} (c : mono_class method err)
    (derive : List T → String × Bool) (sig : function_signature T) (name : String)
    (tr : List lookup_call)
    (h : (derive (function_traits.arg_types sig)).2 = true) :
    (c.get_method derive sig name tr).2 =
        tr ++ [lookup_call.by_signature
                (name ++ "(" ++ (derive (function_traits.arg_types sig)).1 ++ ")")] ∧
    (c.get_method derive sig name tr).1 =
        (c.get_method_with_args
          (name ++ "(" ++ (derive (function_traits.arg_types sig)).1 ++ ")")).map
          (fun func => { signature := sig, method := func }) ∧
    (∀ call ∈ ((c.get_method derive sig name tr).2).drop tr.length,
        call.is_arity = false) := by
  have hr : c.get_method derive sig name tr =
      ((c.get_method_with_args
          (name ++ "(" ++ (derive (function_traits.arg_types sig)).1 ++ ")")).map
          (fun func => { signature := sig, method := func }),
       tr ++ [lookup_call.by_signature
                (name ++ "(" ++ (derive (function_traits.arg_types sig)).1 ++ ")")]) := by
    simp only [mono_class.get_method, h, if_true, mono_class.lookup_with_args]
    cases c.get_method_with_args
        (name ++ "(" ++ (derive (function_traits.arg_types sig)).1 ++ ")") <;> rfl
  rw [hr]
  refine ⟨rfl, rfl, ?_⟩
  intro call hc
  simp only [List.drop_left, List.mem_singleton] at hc
  subst hc
  rfl

/-- Witness of C2: `Scale` with native signature `vec2f(float)`. -/
theorem get_method_known_uses_signature_witness :
    (types.get_args_signature types.token
        (function_traits.arg_types
          ({ ret := NativeType.vec2f, args := [NativeType.float] } :
            function_signature NativeType))).2 = true ∧
    (sample_class.get_method (types.get_args_signature types.token)
        { ret := NativeType.vec2f, args := [NativeType.float] } "Scale" []).2
      = [lookup_call.by_signature "Scale(single)"] :=
  ⟨by decide,
   (get_method_known_uses_signature sample_class (types.get_args_signature types.token)
      { ret := NativeType.vec2f, args := [NativeType.float] } "Scale" [] (by decide)).1⟩

/-- C3: when the signature deriver reports `all_types_known = false`, the templated
`get_method` performs exactly one lookup, by name and parameter count; the count is the arity
of the native signature, which is the length of its argument-type tuple; the signature string
is passed to no lookup. -/
theorem get_method_unknown_uses_arity {T method err : Type} (c : mono_class method err)
    (derive : List T → String × Bool) (sig : function_signature T) (name : String)
    (tr : List lookup_call)
    (h : (derive (function_traits.arg_types sig)).2 = false) :
    (c.get_method derive sig name tr).2 =
        tr ++ [lookup_call.by_arity name (function_traits.arity sig)] ∧
    function_traits.arity sig = ((function_traits.arg_types sig).length : Int) ∧
    (c.get_method derive sig name tr).1 =
        (c.get_method_argc name ((function_traits.arg_types sig).length : Int)).map
          (fun func => { signature := sig, method := func }) ∧
    (∀ call ∈ ((c.get_method derive sig name tr).2).drop tr.length,
        call.is_signature = false) := by
  have hr : c.get_method derive sig name tr =
      ((c.get_method_argc name (function_traits.arity sig)).map
          (fun func => { signature := sig, method := func }),
       tr ++ [lookup_call.by_arity name (function_traits.arity sig)]) := by
    simp only [mono_class.get_method, h, mono_class.lookup_argc]
    cases c.get_method_argc name (function_traits.arity sig) <;> rfl
  rw [hr]
  refine ⟨rfl, rfl, rfl, ?_⟩
  intro call hc
  simp only [List.drop_left, List.mem_singleton] at hc
  subst hc
  rfl

/-- Witness of C3: `MethodPodAR` with native signature `vec2f(vec2f)`, whose parameter type
has no token. -/
theorem get_method_unknown_uses_arity_witness :
    (types.get_args_signature types.token
        (function_traits.arg_types
          ({ ret := NativeType.vec2f, args := [NativeType.vec2f] } :
            function_signature NativeType))).2 = false ∧
    (sample_class.get_method (types.get_args_signature types.token)
        { ret := NativeType.vec2f, args := [NativeType.vec2f] } "MethodPodAR" []).2
      = [lookup_call.by_arity "MethodPodAR" 1] :=
  ⟨by decide,
   (get_method_unknown_uses_arity sample_class (types.get_args_signature types.token)
      { ret := NativeType.vec2f, args := [NativeType.vec2f] } "MethodPodAR" []
      (by decide)).1⟩


/-- C4: a failure of the single lookup that the templated `get_method` selects (the signature
string when all types are known, name and arity otherwise) is the outcome of `get_method`: it
fails with that same failure, so no thunk is built, and the trace grows by the selected lookup
alone, so the other lookup strategy is not attempted. -/
theorem get_method_failure_surfaces {T method err : Type} (c : mono_class method err)
    (derive : List T → String × Bool) (sig : function_signature T) (name : String)
    (tr : List lookup_call) (e : err)
    (h : (if (derive (function_traits.arg_types sig)).2 = true
          then c.get_method_with_args
                (name ++ "(" ++ (derive (function_traits.arg_types sig)).1 ++ ")")
          else c.get_method_argc name (function_traits.arity sig)) = Except.error e) :
    c.get_method derive sig name tr =
      (Except.error e,
       tr ++ [if (derive (function_traits.arg_types sig)).2 = true
              then lookup_call.by_signature
                    (name ++ "(" ++ (derive (function_traits.arg_types sig)).1 ++ ")")
              else lookup_call.by_arity name (function_traits.arity sig)]) := by
  cases hk : (derive (function_traits.arg_types sig)).2 with
  | true =>
    simp only [hk, if_true] at h
    simp only [mono_class.get_method, hk, if_true, mono_class.lookup_with_args, h]
  | false =>
    simp only [hk, Bool.false_eq_true, if_false] at h
    simp only [mono_class.get_method, hk, Bool.false_eq_true, if_false,
      mono_class.lookup_argc, h]

/-- Witness of C4: `Twice` with native signature `float(float, float)`: all types are known,
the signature lookup fails, and the arity lookup `("Twice", 2)`, which would succeed on
this class, is not attempted. -/
theorem get_method_failure_surfaces_witness :
    sample_class.get_method_argc "Twice" 2 =
        Except.ok "Tests.MonortTest:Twice (single,single)" ∧
    sample_class.get_method (types.get_args_signature types.token)
        { ret := NativeType.float, args := [NativeType.float, NativeType.float] } "Twice" []
      = (Except.error "no method Twice(single,single)",
         [lookup_call.by_signature "Twice(single,single)"]) :=
  ⟨rfl,
   get_method_failure_surfaces sample_class (types.get_args_signature types.token)
      { ret := NativeType.float, args := [NativeType.float, NativeType.float] } "Twice" []
      "no method Twice(single,single)" rfl⟩

/-- C10: the templated `get_method` does not look at the return type of the native signature:
two signatures with the same ordered parameter types, whatever their return types, lead to the
same lookups, and to the same outcome up to the signature recorded in the thunk: the same
failure, or thunks that wrap the same resolved method. -/
theorem get_method_ignores_return_type {T method err : Type} (c : mono_class method err)
    (derive : List T → String × Bool) (sig1 sig2 : function_signature T) (name : String)
    (tr : List lookup_call)
    (hargs : sig1.args = sig2.args) :
    (c.get_method derive sig1 name tr).2 = (c.get_method derive sig2 name tr).2 ∧
    ((c.get_method derive sig1 name tr).1).map (fun t => t.method) =
      ((c.get_method derive sig2 name tr).1).map (fun t => t.method) := by
  cases sig1 with
  | mk r1 a1 =>
    cases sig2 with
    | mk r2 a2 =>
      simp only at hargs
      subst hargs
      simp only [mono_class.get_method, function_traits.arg_types, function_traits.arity,
        mono_class.lookup_with_args, mono_class.lookup_argc]
      cases (derive a1).2
      · simp only [Bool.false_eq_true, if_false]
        cases c.get_method_argc name (a1.length : Int) <;> exact ⟨rfl, rfl⟩
      · simp only [if_true]
        cases c.get_method_with_args (name ++ "(" ++ (derive a1).1 ++ ")") <;>
          exact ⟨rfl, rfl⟩

/-- Witness of C10: `MethodPodAR` looked up as `vec2f(vec2f)` and as `void(vec2f)`. -/
theorem get_method_ignores_return_type_witness :
    (sample_class.get_method (types.get_args_signature types.token)
        { ret := NativeType.vec2f, args := [NativeType.vec2f] } "MethodPodAR" []).2 =
      (sample_class.get_method (types.get_args_signature types.token)
        { ret := NativeType.void, args := [NativeType.vec2f] } "MethodPodAR" []).2 ∧
    ((sample_class.get_method (types.get_args_signature types.token)
        { ret := NativeType.vec2f, args := [NativeType.vec2f] } "MethodPodAR" []).1).map
        (fun t => t.method) =
      ((sample_class.get_method (types.get_args_signature types.token)
        { ret := NativeType.void, args := [NativeType.vec2f] } "MethodPodAR" []).1).map
        (fun t => t.method) :=
  get_method_ignores_return_type sample_class (types.get_args_signature types.token)
    { ret := NativeType.vec2f, args := [NativeType.vec2f] }
    { ret := NativeType.void, args := [NativeType.vec2f] } "MethodPodAR" [] rfl


/-! ### Facts about the converters and the marshaler -/

theorem to_native_invocations (T : NativeType) (m : ManagedValue) (w : World) :
    (to_native T m w).2.invocations = w.invocations := by
  unfold to_native
  split <;> try rfl
  simp only [mono_object_wrapper.extract]
  split <;> rfl

theorem to_managed_invocations (T : NativeType) (v : T.carrier) (w : World) :
    (to_managed T v w).2.invocations = w.invocations := by
  cases T <;> rfl

theorem to_managed_next_object (T : NativeType) (v : T.carrier) (w : World) :
    w.next_object ≤ (to_managed T v w).2.next_object := by
  cases T <;> simp [to_managed, mono_object_wrapper.create, create_instance]

theorem to_managed_object_lt (T : NativeType) (v : T.carrier) (w : World) (id : Nat)
    (h : (to_managed T v w).1 = ManagedValue.object id) :
    id = w.next_object ∧ id < (to_managed T v w).2.next_object := by
  cases T <;> simp [to_managed, mono_object_wrapper.create, create_instance] at h ⊢
  omega

/-- The round-trip law of the registered converters: what `to_managed` boxed is unboxed to the
same native value, in any later state that kept the handle of the proxy. -/
theorem to_native_to_managed (T : NativeType) (v : T.carrier) (w w' : World)
    (h : ∀ id, (to_managed T v w).1 = ManagedValue.object id →
          w'.handle_field id = (to_managed T v w).2.handle_field id) :
    (to_native T (to_managed T v w).1 w').1 = Except.ok v := by
  cases T
  · rfl
  · rfl
  · rfl
  · rfl
  · have h1 := h w.next_object rfl
    simp only [to_managed, mono_object_wrapper.create, create_instance,
      Function.update_same] at h1
    simp only [to_managed, create_instance, to_native, mono_object_wrapper.extract, h1]


/-! ### Field and property invokers -/

theorem field_static_set_get (i : mono_field_invoker) (v : i.type.carrier) (w : World) :
    (i.set_value_static v w).1 = Except.ok () ∧
    (i.get_value_static (i.set_value_static v w).2).1 = Except.ok v := by
  refine ⟨rfl, ?_⟩
  simp only [mono_field_invoker.get_value_static, mono_field_invoker.set_value_static,
    read_field, write_field, Function.update_same]
  exact to_native_to_managed i.type v w _ (fun _ _ => rfl)

theorem property_static_set_get (i : mono_property_invoker) (v : i.type.carrier) (w : World)
    (hs : i.property.is_static = true) :
    (i.set_value_static v w).1 = Except.ok () ∧
    (i.get_value_static (i.set_value_static v w).2).1 = Except.ok v := by
  have hset : i.set_value_static v w =
      (Except.ok (),
       write_field
        { (to_managed i.type v w).2 with
          invocations := (to_managed i.type v w).2.invocations ++
            [{ declaring_type := i.property.declaring_type,
               name := "set_" ++ i.property.name, signature := "value", receiver := none,
               args := [(to_managed i.type v w).1] }] }
        i.property.backing none (to_managed i.type v w).1) := by
    simp [mono_property_invoker.set_value_static, mono_property_invoker.setter_thunk,
      mono_method_thunk.call, PropertyHandle.set_method, hs, pack, generic_invoke, to_native]
  rw [hset]
  refine ⟨rfl, ?_⟩
  simp only [mono_property_invoker.get_value_static, mono_property_invoker.getter_thunk,
    mono_method_thunk.call, PropertyHandle.get_method, hs, pack, generic_invoke, read_field,
    write_field, Function.update_same, Bool.not_true, Bool.false_and, Bool.false_eq_true,
    if_false, Option.map_none']
  exact to_native_to_managed i.type v w _ (fun _ _ => rfl)


theorem to_managed_static_fields (T : NativeType) (v : T.carrier) (w : World) :
    (to_managed T v w).2.static_fields = w.static_fields := by
  cases T <;> rfl

theorem property_set_eq (i : mono_property_invoker) (o : mono_object) (v : i.type.carrier)
    (w : World) (ho : o.valid = true) :
    i.set_value o v w =
      (Except.ok (),
       write_field
        { (to_managed i.type v w).2 with
          invocations := (to_managed i.type v w).2.invocations ++
            [{ declaring_type := i.property.declaring_type,
               name := "set_" ++ i.property.name, signature := "value",
               receiver := some o.id, args := [(to_managed i.type v w).1] }] }
        i.property.backing (some o.id) (to_managed i.type v w).1) := by
  simp [mono_property_invoker.set_value, mono_property_invoker.setter_thunk,
    mono_method_thunk.call, PropertyHandle.set_method, ho, pack, generic_invoke, to_native]

theorem wf_to_managed (T : NativeType) (v : T.carrier) (w : World) (hw : w.wf) :
    (to_managed T v w).2.wf := by
  cases T
  · exact hw
  · exact hw
  · exact hw
  · exact hw
  · refine ⟨?_, ?_, ?_⟩
    · intro id h
      simp only [to_managed, mono_object_wrapper.create, create_instance] at h ⊢
      rw [Function.update_noteq (by omega)]
      exact hw.1 id (by omega)
    · intro f id h
      exact Nat.lt_succ_of_lt (hw.2.1 f id h)
    · intro o f id h
      exact Nat.lt_succ_of_lt (hw.2.2 o f id h)

theorem wf_write_field (w : World) (f : FieldHandle) (receiver : Option Nat)
    (m : ManagedValue) (hw : w.wf)
    (hm : ∀ id, m = ManagedValue.object id → id < w.next_object) :
    (write_field w f receiver m).wf := by
  cases receiver with
  | none =>
    refine ⟨hw.1, ?_, hw.2.2⟩
    intro g id h
    simp only [write_field] at h
    by_cases hg : g = f
    · subst hg
      rw [Function.update_same] at h
      exact hm id h
    · rw [Function.update_noteq hg] at h
      exact hw.2.1 g id h
  | some r =>
    refine ⟨hw.1, hw.2.1, ?_⟩
    intro o g id h
    simp only [write_field] at h
    by_cases ho : o = r
    · subst ho
      rw [Function.update_same] at h
      by_cases hg : g = f
      · subst hg
        rw [Function.update_same] at h
        exact hm id h
      · rw [Function.update_noteq hg] at h
        exact hw.2.2 o g id h
    · rw [Function.update_noteq ho] at h
      exact hw.2.2 o g id h

theorem wf_field_set_value (i : mono_field_invoker) (o : mono_object) (v : i.type.carrier)
    (w : World) (hw : w.wf) : (i.set_value o v w).2.wf := by
  simp only [mono_field_invoker.set_value]
  cases o.valid
  · exact hw
  · exact wf_write_field _ _ _ _ (wf_to_managed i.type v w hw)
      (fun id h => (to_managed_object_lt i.type v w id h).2)

theorem wf_property_set_value (i : mono_property_invoker) (o : mono_object)
    (v : i.type.carrier) (w : World) (hw : w.wf) : (i.set_value o v w).2.wf := by
  cases ho : o.valid
  · simp only [mono_property_invoker.set_value, ho]
    exact hw
  · rw [property_set_eq i o v w ho]
    exact wf_write_field _ _ _ _ (wf_to_managed i.type v w hw)
      (fun id h => (to_managed_object_lt i.type v w id h).2)

/-- C5: static field and static property accessors round-trip: in any state `w`, and in the
state reached from it after any sequence of accesses to static members, `set_value(v)`
succeeds and the following `get_value()` on the same invoker returns `v`. -/
theorem static_accessors_round_trip (touches : List static_touch) (w : World)
    (fi : mono_field_invoker) (fv : fi.type.carrier)
    (p : mono_property_invoker) (pv : p.type.carrier)
    (hs : p.property.is_static = true) :
    ((fi.set_value_static fv w).1 = Except.ok () ∧
      (fi.get_value_static (fi.set_value_static fv w).2).1 = Except.ok fv) ∧
    ((fi.set_value_static fv (run_touches touches w)).1 = Except.ok () ∧
      (fi.get_value_static (fi.set_value_static fv (run_touches touches w)).2).1
        = Except.ok fv) ∧
    ((p.set_value_static pv w).1 = Except.ok () ∧
      (p.get_value_static (p.set_value_static pv w).2).1 = Except.ok pv) ∧
    ((p.set_value_static pv (run_touches touches w)).1 = Except.ok () ∧
      (p.get_value_static (p.set_value_static pv (run_touches touches w)).2).1
        = Except.ok pv) :=
  ⟨field_static_set_get fi fv w, field_static_set_get fi fv _,
   property_static_set_get p pv w hs, property_static_set_get p pv _ hs⟩

/-- Witness of C5: the static NON-POD field and the static POD property of the suite, before
and after the static POD field has been set to `(6, 7)`. -/
theorem static_accessors_round_trip_witness :
    static_pod_property.property.is_static = true ∧
    (static_pod_property.get_value_static
        (static_pod_property.set_value_static { x := f55, y := f56 }
          (run_touches [static_touch.field_set static_pod_field { x := f6, y := f7 }]
            World.empty)).2).1 = Except.ok { x := f55, y := f56 } ∧
    (static_nonpod_field.get_value_static
        (static_nonpod_field.set_value_static { address := 3 }
          (run_touches [static_touch.field_set static_pod_field { x := f6, y := f7 }]
            World.empty)).2).1 = Except.ok { address := 3 } :=
  ⟨rfl,
   (static_accessors_round_trip
      [static_touch.field_set static_pod_field { x := f6, y := f7 }] World.empty
      static_nonpod_field { address := 3 } static_pod_property { x := f55, y := f56 }
      rfl).2.2.2.2,
   (static_accessors_round_trip
      [static_touch.field_set static_pod_field { x := f6, y := f7 }] World.empty
      static_nonpod_field { address := 3 } static_pod_property { x := f55, y := f56 }
      rfl).2.1.2⟩

/-- C7: after `mono_object_wrapper::create(instance, ref)`, extracting the handle from
that instance succeeds and yields a reference to the same native object as `ref`: the same
address, not a copy (the native heap is untouched). Both operations contribute one strong
reference. -/
theorem wrapper_create_extract_identity (w : World) (inst : mono_object) (ref : shared_ptr) :
    (mono_object_wrapper.extract (mono_object_wrapper.create w inst ref) inst).1
      = Except.ok ref ∧
    (∀ r, (mono_object_wrapper.extract (mono_object_wrapper.create w inst ref) inst).1
        = Except.ok r → r.address = ref.address) ∧
    (mono_object_wrapper.extract (mono_object_wrapper.create w inst ref) inst).2.native_heap
      = w.native_heap ∧
    (mono_object_wrapper.extract (mono_object_wrapper.create w inst ref)
        inst).2.use_count ref.address = w.use_count ref.address + 2 := by
  have h : mono_object_wrapper.extract (mono_object_wrapper.create w inst ref) inst =
      (Except.ok ref,
       { (mono_object_wrapper.create w inst ref) with
         use_count := Function.update (mono_object_wrapper.create w inst ref).use_count
           ref.address ((mono_object_wrapper.create w inst ref).use_count ref.address + 1) })
      := by
    simp only [mono_object_wrapper.extract, mono_object_wrapper.create, Function.update_same]
  rw [h]
  refine ⟨rfl, ?_, rfl, ?_⟩
  · intro r hr
    cases hr
    rfl
  · simp only [mono_object_wrapper.create, Function.update_same]

/-! ### Invocation thunk -/

theorem pack_invocations (args : List NativeValue) (w : World) :
    (pack args w).2.invocations = w.invocations := by
  induction args generalizing w with
  | nil => rfl
  | cons a rest ih =>
    simp only [pack]
    rw [ih, to_managed_invocations]

theorem write_field_invocations (w : World) (f : FieldHandle) (receiver : Option Nat)
    (m : ManagedValue) : (write_field w f receiver m).invocations = w.invocations := by
  cases receiver <;> rfl

theorem generic_invoke_invocations (w : World) (m : MethodHandle) (receiver : Option Nat)
    (args : List ManagedValue) :
    (generic_invoke w m receiver args).2.invocations = w.invocations ++
      [{ declaring_type := m.declaring_type, name := m.name, signature := m.signature,
         receiver := receiver, args := args }] := by
  unfold generic_invoke
  split
  · rfl
  · exact write_field_invocations _ _ _ _
  · split <;> rfl
  · rfl

/-- C8: for a thunk over a non-static method, a call with an instance that is not live fails
with `InvalidInstance` and leaves the state as it was, so nothing is invoked through the host
runtime; a call with a live instance performs exactly one invoke, of the thunk's method on
that instance with the packed arguments. -/
theorem thunk_call_checks_instance (t : mono_method_thunk NativeType MethodHandle)
    (o : mono_object) (args : List NativeValue) (w : World)
    (hns : t.method.is_static = false) :
    (o.valid = false →
      (t.call (some o) args w).1 = Except.error Failure.InvalidInstance ∧
      (t.call (some o) args w).2 = w ∧
      (t.call (some o) args w).2.invocations = w.invocations) ∧
    (o.valid = true →
      (t.call (some o) args w).2.invocations = w.invocations ++
        [{ declaring_type := t.method.declaring_type, name := t.method.name,
           signature := t.method.signature, receiver := some o.id,
           args := (pack args w).1 }]) := by
  constructor
  · intro hv
    simp [mono_method_thunk.call, hns, hv]
  · intro hv
    simp only [mono_method_thunk.call, hns, hv, Bool.not_false, Bool.not_true,
      Bool.and_false, Bool.false_eq_true, if_false, Option.map_some']
    have hg := generic_invoke_invocations (pack args w).2 t.method (some o.id) (pack args w).1
    rw [pack_invocations] at hg
    rcases hq : generic_invoke (pack args w).2 t.method (some o.id) (pack args w).1
      with ⟨r, w2⟩
    rw [hq] at hg
    cases r with
    | error e => exact hg
    | ok m =>
      simp only
      rw [to_native_invocations]
      exact hg

/-- Witness of C8: the thunk of "call member method 3" called on a reference that is not
valid, and on a live instance. -/
theorem thunk_call_checks_instance_witness :
    MethodPodAR_thunk.method.is_static = false ∧
    (MethodPodAR_thunk.call (some { id := 0, is_valid := false })
        [{ type := NativeType.vec2f, value := { x := f12, y := f15 } }] two_instances).1
      = Except.error Failure.InvalidInstance ∧
    (MethodPodAR_thunk.call (some { id := 0, is_valid := true })
        [{ type := NativeType.vec2f, value := { x := f12, y := f15 } }]
        two_instances).2.invocations
      = [{ declaring_type := "Tests.MonortTest", name := "MethodPodAR",
           signature := "Tests.Vector2f", receiver := some 0,
           args := [ManagedValue.vector2f { x := f12, y := f15 }] }] :=
  ⟨rfl,
   ((thunk_call_checks_instance MethodPodAR_thunk { id := 0, is_valid := false }
      [{ type := NativeType.vec2f, value := { x := f12, y := f15 } }] two_instances rfl).1
      rfl).1,
   (thunk_call_checks_instance MethodPodAR_thunk { id := 0, is_valid := true }
      [{ type := NativeType.vec2f, value := { x := f12, y := f15 } }] two_instances rfl).2
      rfl⟩


/-! ### Internal-call bridge -/

theorem pack_next_object (vs : List NativeValue) (w : World) :
    w.next_object ≤ (pack vs w).2.next_object := by
  induction vs generalizing w with
  | nil => exact Nat.le_refl _
  | cons a rest ih =>
    simp only [pack]
    exact Nat.le_trans (to_managed_next_object a.type a.value w) (ih _)

/-- The static property of the suite reads back what was stored in the static field behind
it: after "test static POD field" has set the field to `(6, 7)`, "test static POD property"
first reads `(6, 7)`. -/
theorem static_property_reads_backing_field :
    (static_pod_property.get_value_static
        (static_pod_field.set_value_static { x := f6, y := f7 } World.empty).2).1
      = Except.ok { x := f6, y := f7 } :=
  rfl

end monopp
